import Mathlib

/-!
Shallow embedding of the ANSI terminal emulation engine of
src/humbug/gui/terminal/terminal_widget.py (class TerminalWidget).

Modelling conventions:
* The QPlainTextEdit document is a list of lines (blocks) of characters;
  toPlainText corresponds to joining the lines with a newline character.
* Python integers are Int; Python string characters are Char; raw byte
  output emitted through the data_ready signal is a List Nat of byte values.
* put_data first decodes its bytes with errors set to replace, which never
  raises and is the identity on ASCII data; all escape sequences the engine
  interprets are ASCII, so putData below consumes the decoded character list.
* Python exceptions that can escape a method are modelled with Except String;
  a call to a method that does not exist on the class (an AttributeError at
  runtime) is modelled as an error value.
* GUI-only effects (repaints, blink timers, PTY ioctls, logging, the debug
  print calls) have no observable effect on the engine state and are omitted.
  The first visible block of the viewport is a rendering quantity; it is
  modelled as block 0, which is exact whenever the document fits the viewport.
-/

namespace Humbug

/-- Color roles used by the style manager; the engine only ever stores which
role a cell or format refers to, so a color is identified with its role. -/
inductive ColorRole where
  | textPrimary
  | tabBackgroundActive
  | termBlack | termRed | termGreen | termYellow
  | termBlue | termMagenta | termCyan | termWhite
  | termBrightBlack | termBrightRed | termBrightGreen | termBrightYellow
  | termBrightBlue | termBrightMagenta | termBrightCyan | termBrightWhite
deriving DecidableEq, Repr

/-- The tracked part of a QTextCharFormat: foreground, background, font
weight (Qt6 values: 400 normal, 700 bold, 300 light), italic and underline,
each with its explicit-override marker property (FormatProperty). -/
structure TextFormat where
  foreground : ColorRole
  background : ColorRole
  fontWeight : Nat
  fontItalic : Bool
  fontUnderline : Bool
  customForeground : Bool
  customBackground : Bool
  customWeight : Bool
  customItalic : Bool
  customUnderline : Bool
deriving DecidableEq, Repr

/-- The default text format built by update default format: theme default
colors, normal weight, no italic or underline, all custom markers cleared. -/
def defaultTextFormat : TextFormat :=
  { foreground := .textPrimary
    background := .tabBackgroundActive
    fontWeight := 400
    fontItalic := false
    fontUnderline := false
    customForeground := false
    customBackground := false
    customWeight := false
    customItalic := false
    customUnderline := false }

/-- Engine state: the fields of TerminalWidget that the terminal engine reads
or writes, plus the byte stream emitted through the data_ready signal. -/
structure TermState where
  rows : Nat
  cols : Nat
  /-- The document of the QPlainTextEdit, as a list of blocks (lines). An
  empty document is a single empty block. -/
  grid : List (List Char)
  /-- Tracked cursor row (0-based); a Python int, so possibly negative. -/
  cursorRow : Int
  /-- Tracked cursor column (0-based). -/
  cursorCol : Int
  savedCursorPosition : Option (Int × Int)
  escapeSeqBuffer : List Char
  inEscapeSeq : Bool
  alternateScreenBuffer : List Char
  mainScreenBuffer : List Char
  usingAlternateScreen : Bool
  scrollRegion : Option (Int × Int)
  applicationCursorKeys : Bool
  applicationKeypadMode : Bool
  mouseTracking : Bool
  mouseTrackingSGR : Bool
  savedMouseTracking : Bool
  savedMouseTrackingSGR : Bool
  bracketedPasteMode : Bool
  currentDirectory : Option (List Char)
  currentTextFormat : TextFormat
  /-- State of setOverwriteMode on the widget. -/
  overwriteMode : Bool
  /-- State of setCursorWidth on the widget. -/
  cursorWidth : Nat
  /-- True when setLineWrapMode was given WidgetWidth, false for NoWrap. -/
  lineWrapWidget : Bool
  /-- Character offset of the interactive Qt text cursor in the document
  text (the position of textCursor). -/
  qtCursor : Nat
  /-- Bytes emitted through the data_ready signal, in order. -/
  emitted : List Nat
deriving DecidableEq, Repr

/-- Initial engine state after TerminalWidget init, for a terminal whose
calculated size is the given rows and cols. The Qt document starts empty
(one empty block); QPlainTextEdit starts in insert mode. -/
def initState (rows cols : Nat) : TermState :=
  { rows := rows
    cols := cols
    grid := [[]]
    cursorRow := 0
    cursorCol := 0
    savedCursorPosition := none
    escapeSeqBuffer := []
    inEscapeSeq := false
    alternateScreenBuffer := []
    mainScreenBuffer := []
    usingAlternateScreen := false
    scrollRegion := none
    applicationCursorKeys := false
    applicationKeypadMode := false
    mouseTracking := false
    mouseTrackingSGR := false
    savedMouseTracking := false
    savedMouseTrackingSGR := false
    bracketedPasteMode := false
    currentDirectory := none
    currentTextFormat := defaultTextFormat
    overwriteMode := false
    cursorWidth := 8
    lineWrapWidget := false
    qtCursor := 0
    emitted := [] }

/-! ### Small Python/Qt primitives -/

/-- Split a character list at every occurrence of the separator, like the
Python str.split method with a separator argument: splitting the empty
string yields one empty part. -/
def splitOnChar (sep : Char) : List Char → List (List Char)
  | [] => [[]]
  | c :: rest =>
    let r := splitOnChar sep rest
    if c = sep then [] :: r
    else
      match r with
      | h :: t => (c :: h) :: t
      | [] => [[c]]

/-- Split at the first occurrence of the separator only (str.split with
maxsplit 1): returns the part before it and, when found, the part after. -/
def splitOnceOnChar (sep : Char) : List Char → List Char × Option (List Char)
  | [] => ([], none)
  | c :: rest =>
    if c = sep then ([], some rest)
    else
      let p := splitOnceOnChar sep rest
      (c :: p.1, p.2)

/-- Value of a non-empty all-digit character list. -/
def digitsVal (ds : List Char) : Nat :=
  ds.foldl (fun a c => a * 10 + (c.toNat - 48)) 0

/-- Python int applied to a string: optional surrounding ASCII whitespace,
an optional sign, then one or more decimal digits; anything else raises
ValueError, modelled as none. (Digit-group underscores and non-ASCII digits
accepted by Python do not occur in escape-sequence data.) -/
def pyInt? (l : List Char) : Option Int :=
  let isSpace fun0 := fun0 = ' ' ∨ fun0 = '\t' ∨ fun0 = '\n' ∨ fun0 = '\r'
  let t := ((l.dropWhile fun c => isSpace c).reverse.dropWhile fun c => isSpace c).reverse
  let core (ds : List Char) : Option Nat :=
    if ds ≠ [] ∧ ds.all Char.isDigit then some (digitsVal ds) else none
  match t with
  | '+' :: ds => (core ds).map fun n => (n : Int)
  | '-' :: ds => (core ds).map fun n => -(n : Int)
  | ds => (core ds).map fun n => (n : Int)

/-- UTF-8 encoding of one character (what str.encode does per code point). -/
def utf8EncodeChar (c : Char) : List Nat :=
  let n := c.toNat
  if n < 0x80 then [n]
  else if n < 0x800 then [0xC0 + n / 64, 0x80 + n % 64]
  else if n < 0x10000 then
    [0xE0 + n / 4096, 0x80 + n / 64 % 64, 0x80 + n % 64]
  else
    [0xF0 + n / 0x40000, 0x80 + n / 4096 % 64, 0x80 + n / 64 % 64, 0x80 + n % 64]

/-- UTF-8 encoding of a character list. -/
def utf8Bytes (l : List Char) : List Nat := (l.map utf8EncodeChar).flatten

/-- Decimal digit characters of a natural number. -/
def decChars (n : Nat) : List Char := (Nat.repr n).toList

/-- Record bytes passed to a data_ready emit call. -/
def emitBytes (bs : List Nat) (s : TermState) : TermState :=
  { s with emitted := s.emitted ++ bs }

/-! ### Qt document geometry -/

/-- The plain text of a document: its lines joined by newline characters
(what toPlainText returns, with paragraph separators read back as newlines). -/
def docText (g : List (List Char)) : List Char := (g.intersperse ['\n']).flatten

/-- Parse plain text back into a document. -/
def textDoc (t : List Char) : List (List Char) := splitOnChar '\n' t

/-- A line of blank cells. -/
def blankLine (cols : Nat) : List Char := List.replicate cols ' '

/-- The block (line) number containing a character position. -/
def blockNumberAt (t : List Char) (pos : Nat) : Nat :=
  ((t.take pos).filter fun c => c = '\n').length

/-- The column of a character position within its block. -/
def columnNumberAt (t : List Char) (pos : Nat) : Nat :=
  ((t.take pos).reverse.takeWhile fun c => c ≠ '\n').length

/-- Character position of the start of a block. -/
def blockStart (g : List (List Char)) (b : Nat) : Nat :=
  (((g.take b).map fun l => l.length).sum) + b

/-- Position of the end of the line containing a position (before its
newline, or the end of the text). -/
def lineEndAt (t : List Char) (pos : Nat) : Nat :=
  pos + ((t.drop pos).takeWhile fun c => c ≠ '\n').length

/-- Position of the start of the line containing a position. -/
def lineStartAt (t : List Char) (pos : Nat) : Nat :=
  pos - columnNumberAt t pos

/-- First visible block of the viewport. This is GUI scroll state outside
the engine; it is modelled as block 0, exact whenever the document fits the
viewport (the engine keeps the document at rows lines in its steady state). -/
def firstVisibleBlockNumber (_ : TermState) : Nat := 0

/-- Overwrite the cell at a block and column of the document, as the Qt
text cursor sequence Start, NextBlock n times, StartOfLine, Right col,
select one right, insertText does. Qt stops at the last block when asked to
move past it; the column is within the line in every state the engine
produces (lines are kept exactly cols cells long). -/
def qtSetCell (g : List (List Char)) (r c : Nat) (ch : Char) : List (List Char) :=
  let r := min r (g.length - 1)
  g.set r ((g.getD r []).set c ch)

/-- Replace a whole block of the document, clamping the block number to the
last block as Qt cursor movement does. -/
def qtSetLine (g : List (List Char)) (r : Nat) (line : List Char) : List (List Char) :=
  g.set (min r (g.length - 1)) line

/-- Model of QTextCursor setPosition: an out-of-range target is ignored and
the cursor keeps its current position. -/
def qtSetPosition (len cur target : Nat) : Nat :=
  if target ≤ len then target else cur

/-! ### Grid model operations -/

/-- Embedding of update cursor position: the row is clamped to be at least
0 and the column is clamped into the interval from 0 to cols minus 1; the
viewport repaints are GUI-only. -/
def updateCursorPosition (row col : Int) (s : TermState) : TermState :=
  { s with
    cursorRow := max 0 row
    cursorCol := max 0 (min col ((s.cols : Int) - 1)) }

/-- Embedding of move cursor relative. -/
def moveCursorRelative (dr dc : Int) (s : TermState) : TermState :=
  updateCursorPosition (s.cursorRow + dr) (s.cursorCol + dc) s

/-- Document part of scroll region up: each block from top to bottom minus 1
has its first cols cells overwritten by those of the block below (reads see
the original lines, since each source line is read before it is written),
and the bottom block has its first cols cells overwritten with blanks. -/
def scrollDocUp (g : List (List Char)) (topB bottomB cols : Nat) : List (List Char) :=
  g.mapIdx fun i line =>
    if topB ≤ i ∧ i < bottomB then
      ((g.getD (i + 1) []).take cols) ++ line.drop cols
    else if i = bottomB ∧ topB ≤ bottomB then
      blankLine cols ++ line.drop cols
    else line

/-- Document part of scroll region down, symmetric to scrollDocUp. -/
def scrollDocDown (g : List (List Char)) (topB bottomB cols : Nat) : List (List Char) :=
  g.mapIdx fun i line =>
    if topB < i ∧ i ≤ bottomB then
      ((g.getD (i - 1) []).take cols) ++ line.drop cols
    else if i = topB ∧ topB ≤ bottomB then
      blankLine cols ++ line.drop cols
    else line

/-- Embedding of scroll region up: cursor row adjustment exactly as in the
source (a cursor at the bottom row stays, any other in-region cursor moves
up one, including past the top edge), then the block moves. The temporary
text cursor used for the edits is never installed back on the widget. -/
def scrollRegionUp (top bottom : Int) (s : TermState) : TermState :=
  let row' :=
    if top ≤ s.cursorRow ∧ s.cursorRow ≤ bottom then
      if s.cursorRow = bottom then bottom else s.cursorRow - 1
    else s.cursorRow
  let fv := firstVisibleBlockNumber s
  { s with
    cursorRow := row'
    grid := scrollDocUp s.grid (fv + top.toNat) (fv + bottom.toNat) s.cols }

/-- Embedding of scroll region down: a cursor at the top row stays, any
other in-region cursor moves down one, including past the bottom edge. -/
def scrollRegionDown (top bottom : Int) (s : TermState) : TermState :=
  let row' :=
    if top ≤ s.cursorRow ∧ s.cursorRow ≤ bottom then
      if s.cursorRow = top then top else s.cursorRow + 1
    else s.cursorRow
  let fv := firstVisibleBlockNumber s
  { s with
    cursorRow := row'
    grid := scrollDocDown s.grid (fv + top.toNat) (fv + bottom.toNat) s.cols }

/-- Embedding of write char: carriage return, newline (honoring the scroll
region), backspace and tab move the cursor; any other character overwrites
the cell at the tracked cursor and advances with wrap at the last column.
Newline without a scroll region only moves the cursor down; nothing scrolls
and the document does not grow. -/
def writeChar (c : Char) (s : TermState) : TermState :=
  if c = '\r' then
    updateCursorPosition s.cursorRow 0 s
  else if c = '\n' then
    match s.scrollRegion with
    | some (top, bottom) =>
      if s.cursorRow = bottom then scrollRegionUp top bottom s
      else updateCursorPosition (s.cursorRow + 1) s.cursorCol s
    | none => updateCursorPosition (s.cursorRow + 1) s.cursorCol s
  else if c = '\x08' then
    updateCursorPosition s.cursorRow (s.cursorCol - 1) s
  else if c = '\t' then
    let spaces := 8 - s.cursorCol % 8
    let newCol := s.cursorCol + spaces
    if newCol < (s.cols : Int) then updateCursorPosition s.cursorRow newCol s
    else s
  else
    let targetBlock := firstVisibleBlockNumber s + s.cursorRow.toNat
    let s1 := { s with grid := qtSetCell s.grid targetBlock s.cursorCol.toNat c }
    if (s1.cols : Int) - 1 ≤ s1.cursorCol then
      updateCursorPosition (s1.cursorRow + 1) 0 s1
    else
      updateCursorPosition s1.cursorRow (s1.cursorCol + 1) s1

/-- Embedding of the clear method: the document is replaced by one blank
line followed by rows minus 1 further blank lines, and the Qt text cursor
is moved to the start. The tracked cursor is not touched. -/
def clear (s : TermState) : TermState :=
  { s with
    grid := blankLine s.cols :: List.replicate (s.rows - 1) (blankLine s.cols)
    qtCursor := 0 }

/-- Pad or truncate one line to the given width, as the reflow loop does. -/
def reflowLine (cols : Nat) (line : List Char) : List Char :=
  if line.length < cols then line ++ List.replicate (cols - line.length) ' '
  else line.take cols

/-- Document part of reflow content: every line is padded or truncated to
the new width. A trailing empty line is left untouched because the loop
cursor is already at the end of the document when it reaches it. The number
of lines never changes. -/
def reflowGrid (cols : Nat) (g : List (List Char)) : List (List Char) :=
  g.dropLast.map (reflowLine cols) ++
    match g.getLast? with
    | none => []
    | some l => [if l = [] then [] else reflowLine cols l]

/-- Embedding of reflow content: reflow the document to the new width and
clamp the tracked cursor into the new bounds. -/
def reflowContent (newSize : Nat × Nat) (s : TermState) : TermState :=
  { s with
    grid := reflowGrid newSize.2 s.grid
    cursorCol := min s.cursorCol ((newSize.2 : Int) - 1)
    cursorRow := min s.cursorRow ((newSize.1 : Int) - 1) }

/-- Embedding of the resize event path: when the newly calculated size
differs from the current one, the stored size is updated and the content is
reflowed; an unchanged size does nothing. -/
def resize (newRows newCols : Nat) (s : TermState) : TermState :=
  if s.rows = newRows ∧ s.cols = newCols then s
  else reflowContent (newRows, newCols) { s with rows := newRows, cols := newCols }

/-- Embedding of handle screen buffer switch. Entering the alternate screen
saves the main text and the Qt cursor position, clears, and inserts rows
blank lines each followed by a newline at the start of the cleared document.
Leaving saves the alternate text, clears, inserts the saved main text at the
start of the cleared document, and then, when a cursor position was saved,
calls the method move cursor to, which does not exist on the class: that
call raises AttributeError. -/
def handleScreenBufferSwitch (enableAlternate : Bool) (s : TermState) :
    Except String TermState :=
  if enableAlternate = s.usingAlternateScreen then .ok s
  else if enableAlternate then
    let t := docText s.grid
    let pos := min s.qtCursor t.length
    let saved : Int × Int :=
      ((blockNumberAt t pos : Int) - (firstVisibleBlockNumber s : Int),
        (columnNumberAt t pos : Int))
    let s1 := { s with
      mainScreenBuffer := t
      savedCursorPosition := some saved }
    let s2 := clear s1
    .ok { s2 with
      grid := List.replicate s2.rows (blankLine s2.cols) ++ s2.grid
      qtCursor := 0
      usingAlternateScreen := true }
  else
    let s1 := { s with alternateScreenBuffer := docText s.grid }
    let s2 := clear s1
    let s3 := { s2 with
      grid := textDoc (s1.mainScreenBuffer ++ docText s2.grid)
      qtCursor := s1.mainScreenBuffer.length }
    match s3.savedCursorPosition with
    | some _ => .error "AttributeError: TerminalWidget has no attribute _move_cursor_to"
    | none => .ok { s3 with usingAlternateScreen := false }

/-! ### Escape-sequence parser -/

/-- The second bytes the source recognizes for simple two-byte escape
sequences. The Python literal is written with a backslash-7 octal escape, so
it contains the BEL control character 0x07, not the digit character 7. -/
def simpleEscChars : List Char :=
  ['=', '>', '\x07', '\\', '8', 'c', 'D', 'E', 'H', 'M']

/-- True for the bytes that terminate a CSI sequence in the source: an
ASCII letter (Python isalpha, which the engine only meets on ASCII data) or
one of the at-sign, backquote and tilde characters. -/
def isCSIFinal (c : Char) : Bool :=
  c.isAlpha || c = '@' || c = Char.ofNat 0x60 || c = '~'

/-- True when the buffer ends with the BEL character. -/
def endsWithBEL (l : List Char) : Bool := l.getLast? = some '\x07'

/-- True when the buffer ends with ESC backslash (the ST terminator). -/
def endsWithST (l : List Char) : Bool :=
  match l.reverse with
  | '\\' :: '\x1b' :: _ => true
  | _ => false

/-- True when the buffer starts with the escape byte followed by the given
second byte (the startswith tests of the source). -/
def startsWithEsc (b : Char) (seq : List Char) : Bool :=
  match seq with
  | c1 :: c2 :: _ => c1 = '\x1b' && c2 = b
  | _ => false

/-- Embedding of is escape sequence complete. -/
def isEscapeSequenceComplete (seq : List Char) : Bool :=
  if seq.length < 2 then false
  else if startsWithEsc ']' seq then endsWithBEL seq || endsWithST seq
  else if startsWithEsc '[' seq then
    match seq.getLast? with
    | some c => isCSIFinal c
    | none => false
  else if startsWithEsc 'P' seq then endsWithST seq
  else seq.length = 2 && seq.getD 1 ' ' ∈ simpleEscChars

/-- A well-formed CSI sequence exactly as put_data consumes one: the ESC
and bracket lead bytes, then at least one further byte, no premature final
byte, and a final byte last; such a sequence completes at its last byte and
at no earlier point. -/
def isValidCSI (seq : List Char) : Bool :=
  match seq with
  | '\x1b' :: '[' :: rest =>
    rest ≠ [] && rest.dropLast.all (fun c => !(isCSIFinal c)) &&
      (match rest.getLast? with
       | some c => isCSIFinal c
       | none => false)
  | _ => false

/-! ### Command handlers -/

/-- Embedding of handle cursor sequence: the regex match of ESC bracket,
optional digits, then one of A B C D anchored at the start of the sequence;
on no match the handler logs and leaves the state unchanged. -/
def handleCursorSequence (seq : List Char) (s : TermState) : TermState :=
  match seq with
  | '\x1b' :: '[' :: rest =>
    let ds := rest.takeWhile Char.isDigit
    match rest.drop ds.length with
    | d :: _ =>
      let count : Int := if ds = [] then 1 else (digitsVal ds : Int)
      if d = 'A' then moveCursorRelative (-count) 0 s
      else if d = 'B' then moveCursorRelative count 0 s
      else if d = 'C' then moveCursorRelative 0 count s
      else if d = 'D' then moveCursorRelative 0 (-count) s
      else s
    | [] => s
  | _ => s

/-- Embedding of handle cursor position: empty parameters home the cursor;
otherwise the first field is the 1-based row and the optional second field
the 1-based column; a parse failure is caught and leaves the state alone.
The row value is converted before the column is parsed, but the update only
happens after both, so a column parse failure changes nothing. -/
def handleCursorPosition (params : List Char) (s : TermState) : TermState :=
  if params = [] then updateCursorPosition 0 0 s
  else
    match splitOnChar ';' params with
    | [] => s
    | p0 :: restParts =>
      match pyInt? p0 with
      | none => s
      | some r0 =>
        match restParts with
        | [] => updateCursorPosition (r0 - 1) 0 s
        | p1 :: _ =>
          match pyInt? p1 with
          | none => s
          | some c1 => updateCursorPosition (r0 - 1) (c1 - 1) s

/-- Embedding of handle clear screen. The edits run through the interactive
Qt text cursor, whose saved position is restored afterwards when it is still
valid. Parameter 0 rewrites the rest of the cursor line with blanks, deletes
everything below, and appends blank lines up to the remaining row count.
Parameter 1 blanks the line up to the cursor and deletes everything before
the cursor line start (the refill loop of the source runs zero times because
the block number is recomputed after the deletion). Parameter 2 replaces the
document with rows blank lines. Parameter 3 keeps only the visible blocks
when not on the alternate screen. -/
def handleClearScreen (params : List Char) (s : TermState) : TermState :=
  let param := if params = [] then ['0'] else params
  let t := docText s.grid
  let pos := min s.qtCursor t.length
  if param = ['0'] then
    let col := columnNumberAt t pos
    let fill := blankLine (s.cols - col)
    let t1 := t.take pos ++ fill
    let curPos := pos + fill.length
    let blockNum := blockNumberAt t1 curPos
    let total := s.rows - (blockNum - firstVisibleBlockNumber s)
    let t2 := t1 ++ (List.replicate (total - 1) ('\n' :: blankLine s.cols)).flatten
    { s with grid := textDoc t2, qtCursor := qtSetPosition t2.length t2.length pos }
  else if param = ['1'] then
    -- The line is blanked up to the cursor, but the subsequent deletion of
    -- everything before the cursor removes exactly those blanks again
    -- (line start plus column equals the cursor position), and the refill
    -- loop runs zero times because the block number is recomputed as 0
    -- after the deletion, so the net text is the suffix from the cursor.
    let t2 := t.drop pos
    { s with grid := textDoc t2, qtCursor := qtSetPosition t2.length 0 pos }
  else if param = ['2'] then
    let t2 := docText (blankLine s.cols :: List.replicate (s.rows - 1) (blankLine s.cols))
    { s with grid := textDoc t2, qtCursor := qtSetPosition t2.length t2.length pos }
  else if param = ['3'] then
    if s.usingAlternateScreen then { s with qtCursor := qtSetPosition t.length pos pos }
    else
      -- The Qt block length counts the block separator, so for the final
      -- block the computed end position is one past the document length and
      -- the selection-extending setPosition is rejected, leaving an empty
      -- selection.
      let lastVis := min (firstVisibleBlockNumber s + s.rows - 1) (s.grid.length - 1)
      let visEnd := blockStart s.grid lastVis + (s.grid.getD lastVis []).length + 1
      let visStart := blockStart s.grid (firstVisibleBlockNumber s)
      let t2 :=
        if visEnd ≤ t.length then (t.take visEnd).drop visStart else []
      { s with grid := textDoc t2, qtCursor := qtSetPosition t2.length t2.length pos }
  else { s with qtCursor := qtSetPosition t.length pos pos }

/-- Embedding of handle erase in line: parameter 0 blanks from the cursor to
the end of the line, 1 from the line start to the cursor, 2 the whole line;
the saved Qt cursor position is restored afterwards. -/
def handleEraseInLine (params : List Char) (s : TermState) : TermState :=
  let param := if params = [] then ['0'] else params
  let t := docText s.grid
  let pos := min s.qtCursor t.length
  if param = ['0'] then
    let col := columnNumberAt t pos
    let t1 := t.take pos ++ blankLine (s.cols - col) ++ t.drop (lineEndAt t pos)
    { s with grid := textDoc t1, qtCursor := qtSetPosition t1.length t1.length pos }
  else if param = ['1'] then
    let col := columnNumberAt t pos
    let t1 := t.take (lineStartAt t pos) ++ blankLine col ++ t.drop pos
    { s with grid := textDoc t1, qtCursor := qtSetPosition t1.length t1.length pos }
  else if param = ['2'] then
    let t1 := t.take (lineStartAt t pos) ++ blankLine s.cols ++ t.drop (lineEndAt t pos)
    { s with grid := textDoc t1, qtCursor := qtSetPosition t1.length t1.length pos }
  else { s with qtCursor := qtSetPosition t.length pos pos }

/-- Iterate a function a fixed number of times, first application first,
like a Python for-range loop around a state mutation. -/
def iterApply (f : α → α) : Nat → α → α
  | 0, a => a
  | n + 1, a => iterApply f n (f a)

/-- Embedding of handle insert delete. The count comes from a bare int
conversion of the parameter string with no try-except around it, so a
parameter list such as two semicolon-separated numbers raises ValueError out
of the handler and out of put_data. The at-sign inserts blanks at the cursor
shifting the rest of the line right, P overwrites with blanks, L and M
repeatedly scroll the region from the cursor row to the last row. -/
def handleInsertDelete (command : Char) (params : List Char) (s : TermState) :
    Except String TermState :=
  let count? := if params = [] then some 1 else pyInt? params
  match count? with
  | none => .error "ValueError: invalid literal for int() with base 10"
  | some count =>
    let colN := s.cursorCol.toNat
    let targetBlock := firstVisibleBlockNumber s + s.cursorRow.toNat
    let line := s.grid.getD (min targetBlock (s.grid.length - 1)) []
    if command = '@' then
      let remaining : Int := (s.cols : Int) - s.cursorCol
      let ic := min count remaining
      let existing := (line.drop colN).take remaining.toNat
      let shifted := existing.take (remaining - ic).toNat
      let newLine := line.take colN ++ List.replicate ic.toNat ' ' ++ shifted ++
        line.drop (colN + ic.toNat + shifted.length)
      .ok { s with grid := qtSetLine s.grid targetBlock newLine }
    else if command = 'P' then
      let k := (min count ((s.cols : Int) - s.cursorCol)).toNat
      let newLine := line.take colN ++ blankLine k ++ line.drop (colN + k)
      .ok { s with grid := qtSetLine s.grid targetBlock newLine }
    else if command = 'L' then
      let cr := s.cursorRow
      .ok (iterApply (fun st => scrollRegionDown cr ((st.rows : Int) - 1) st) count.toNat s)
    else if command = 'M' then
      let cr := s.cursorRow
      .ok (iterApply (fun st => scrollRegionUp cr ((st.rows : Int) - 1) st) count.toNat s)
    else .ok s

/-- Color roles selected by the standard SGR color codes, in code order. -/
def sgrColorRoles : List ColorRole :=
  [.termBlack, .termRed, .termGreen, .termYellow,
    .termBlue, .termMagenta, .termCyan, .termWhite]

/-- Color roles selected by the bright SGR color codes, in code order. -/
def sgrBrightColorRoles : List ColorRole :=
  [.termBrightBlack, .termBrightRed, .termBrightGreen, .termBrightYellow,
    .termBrightBlue, .termBrightMagenta, .termBrightCyan, .termBrightWhite]

/-- One SGR code applied to a text format, as in handle sgr sequence:
0 resets everything to the default with the custom markers cleared, 1 and 2
set bold and light weight, 3 and 4 set italic and underline, 22 to 24 clear
them, 39 and 49 return the colors to the theme defaults, the color ranges
set explicit colors; unknown codes change nothing. -/
def sgrApply (f : TextFormat) (code : Int) : TextFormat :=
  if code = 0 then defaultTextFormat
  else if code = 1 then { f with fontWeight := 700, customWeight := true }
  else if code = 2 then { f with fontWeight := 300, customWeight := true }
  else if code = 3 then { f with fontItalic := true, customItalic := true }
  else if code = 4 then { f with fontUnderline := true, customUnderline := true }
  else if code = 22 then { f with fontWeight := 400, customWeight := false }
  else if code = 23 then { f with fontItalic := false, customItalic := false }
  else if code = 24 then { f with fontUnderline := false, customUnderline := false }
  else if code = 39 then { f with foreground := .textPrimary, customForeground := false }
  else if code = 49 then
    { f with background := .tabBackgroundActive, customBackground := false }
  else if 30 ≤ code ∧ code ≤ 37 then
    { f with foreground := sgrColorRoles.getD (code - 30).toNat .termBlack
             customForeground := true }
  else if 90 ≤ code ∧ code ≤ 97 then
    { f with foreground := sgrBrightColorRoles.getD (code - 90).toNat .termBrightBlack
             customForeground := true }
  else if 40 ≤ code ∧ code ≤ 47 then
    { f with background := sgrColorRoles.getD (code - 40).toNat .termBlack
             customBackground := true }
  else if 100 ≤ code ∧ code ≤ 107 then
    { f with background := sgrBrightColorRoles.getD (code - 100).toNat .termBrightBlack
             customBackground := true }
  else f

/-- Embedding of handle sgr sequence: empty parameters mean reset; the
semicolon-separated fields are folded over the current format, fields that
fail int conversion being skipped. -/
def handleSgrSequence (params : List Char) (s : TermState) : TermState :=
  let ps := if params = [] then ['0'] else params
  let fmt :=
    (splitOnChar ';' ps).foldl
      (fun f p =>
        match pyInt? p with
        | none => f
        | some code => sgrApply f code)
      s.currentTextFormat
  { s with currentTextFormat := fmt }

/-- Embedding of handle device status: parameter 5 replies device OK,
parameter 6 replies the 1-based Qt cursor position. -/
def handleDeviceStatus (params : List Char) (s : TermState) : TermState :=
  if params = ['5'] then
    emitBytes (utf8Bytes ("\x1b[0n".toList)) s
  else if params = ['6'] then
    let t := docText s.grid
    let pos := min s.qtCursor t.length
    let row := blockNumberAt t pos - firstVisibleBlockNumber s + 1
    let col := columnNumberAt t pos + 1
    emitBytes (utf8Bytes ("\x1b[".toList ++ decChars row ++ [';'] ++ decChars col ++ ['R'])) s
  else s

/-- Embedding of handle device attributes: no parameter or 0 replies the
VT100 identification, a greater-than sign replies the VT220 one. -/
def handleDeviceAttributes (params : List Char) (s : TermState) : TermState :=
  if params = [] ∨ params = ['0'] then
    emitBytes (utf8Bytes ("\x1b[?1;2c".toList)) s
  else if params = ['>'] then
    emitBytes (utf8Bytes ("\x1b[>1;10;0c".toList)) s
  else s

/-- Embedding of handle tab control: both recognized parameters are
unimplemented pass statements. -/
def handleTabControl (_params : List Char) (s : TermState) : TermState := s

/-- Embedding of handle scroll region: two int-convertible fields set the
region 0-based; empty parameters, or any unpacking or conversion failure
caught by the except clause, clear the region. -/
def handleScrollRegion (params : List Char) (s : TermState) : TermState :=
  if params ≠ [] then
    match splitOnChar ';' params with
    | [a, b] =>
      match pyInt? a, pyInt? b with
      | some x, some y => { s with scrollRegion := some (x - 1, y - 1) }
      | _, _ => { s with scrollRegion := none }
    | _ => { s with scrollRegion := none }
  else { s with scrollRegion := none }

/-- Embedding of handle mouse tracking mode. -/
def handleMouseTrackingMode (mode : List Char) (setMode : Bool) (s : TermState) :
    TermState :=
  if mode = "1001s".toList then
    { s with savedMouseTracking := s.mouseTracking
             savedMouseTrackingSGR := s.mouseTrackingSGR }
  else if mode = "1001r".toList then
    { s with mouseTracking := s.savedMouseTracking
             mouseTrackingSGR := s.savedMouseTrackingSGR }
  else if mode = "1001".toList then { s with mouseTracking := setMode }
  else if mode = "1002".toList then { s with mouseTracking := setMode }
  else if mode = "1006".toList then { s with mouseTrackingSGR := setMode }
  else s

/-- Embedding of handle private mode; mode 1049 performs the screen buffer
switch, which can raise. -/
def handlePrivateMode (mode : List Char) (setMode : Bool) (s : TermState) :
    Except String TermState :=
  if mode = ['1'] then .ok { s with applicationCursorKeys := setMode }
  else if mode = ['7'] then .ok { s with lineWrapWidget := setMode }
  else if mode = "12".toList then .ok s
  else if mode = "25".toList then .ok { s with cursorWidth := if setMode then 8 else 0 }
  else if mode = "1049".toList then handleScreenBufferSwitch setMode s
  else if mode = "2004".toList then .ok { s with bracketedPasteMode := setMode }
  else if mode = "1001s".toList ∨ mode = "1001r".toList ∨ mode = "1001".toList ∨
      mode = "1002".toList ∨ mode = "1006".toList then
    .ok (handleMouseTrackingMode mode setMode s)
  else .ok s

/-- Embedding of handle ansi mode: mode 4 toggles overwrite, mode 20 is a
pass statement. -/
def handleAnsiMode (mode : List Char) (setMode : Bool) (s : TermState) : TermState :=
  if mode = ['4'] then { s with overwriteMode := !setMode }
  else s

/-- Embedding of handle mode setting: a leading question mark selects the
private modes. -/
def handleModeSetting (command : Char) (params : List Char) (s : TermState) :
    Except String TermState :=
  let setMode := command = 'h'
  match params with
  | '?' :: rest => handlePrivateMode rest setMode s
  | _ => .ok (handleAnsiMode params setMode s)

/-- Embedding of handle osc sequence: the text after the two lead bytes is
split once on a semicolon; a command number that fails int conversion is
caught and reported unhandled. Command 0 logs the title, command 7 answers
a directory query (only when a non-empty directory is known) or stores the
directory, commands 10 and 11 log color changes; anything else is
unhandled. -/
def handleOscSequence (seq : List Char) (s : TermState) : Bool × TermState :=
  let body := seq.drop 2
  let p := splitOnceOnChar ';' body
  match pyInt? p.1 with
  | none => (false, s)
  | some cmd =>
    let param :=
      match p.2 with
      | some r => r.dropLast
      | none => []
    if cmd = 0 then (true, s)
    else if cmd = 7 then
      if param = ['f'] then
        match s.currentDirectory with
        | some d =>
          if d = [] then (true, s)
          else (true, emitBytes (utf8Bytes ("\x1b]7;".toList ++ d ++ "\x1b\\".toList)) s)
        | none => (true, s)
      else (true, { s with currentDirectory := some param })
    else if cmd = 10 ∨ cmd = 11 then (true, s)
    else (false, s)

/-- Model of QTextCursor moving down one line: to the next block keeping
the column when possible; at the last block the move fails and the cursor
stays. -/
def qtMoveDown (g : List (List Char)) (pos : Nat) : Nat :=
  let t := docText g
  let b := blockNumberAt t pos
  let c := columnNumberAt t pos
  if b + 1 < g.length then blockStart g (b + 1) + min c (g.getD (b + 1) []).length
  else pos

/-- Model of QTextCursor moving up one line, symmetric to qtMoveDown. -/
def qtMoveUp (g : List (List Char)) (pos : Nat) : Nat :=
  let t := docText g
  let b := blockNumberAt t pos
  let c := columnNumberAt t pos
  if b = 0 then pos
  else blockStart g (b - 1) + min c (g.getD (b - 1) []).length

/-- Embedding of handle simple sequence, covering save and restore cursor,
index, reverse index, next line and full reset; the Boolean is the handled
flag the caller tests. The index and reverse-index document edits run at the
interactive Qt cursor: at the document edge a newline plus a blank line is
inserted at the cursor position itself. The full reset clears the screen and
resets format, scroll region, saved cursor, keypad and cursor-key modes,
bracketed paste and overwrite mode, touching nothing else. -/
def handleSimpleSequence (c : Char) (s : TermState) : Bool × TermState :=
  if c = '7' then
    (true, { s with savedCursorPosition := some (s.cursorRow, s.cursorCol) })
  else if c = '8' then
    match s.savedCursorPosition with
    | some rc => (true, updateCursorPosition rc.1 rc.2 s)
    | none => (true, s)
  else if c = 'D' then
    let t := docText s.grid
    let pos := min s.qtCursor t.length
    let b := blockNumberAt t pos
    let gp :=
      if b = s.grid.length - 1 then
        let t1 := t.take pos ++ '\n' :: blankLine s.cols ++ t.drop pos
        (textDoc t1, pos + 1 + s.cols)
      else (s.grid, pos)
    (true, { s with grid := gp.1, qtCursor := qtMoveDown gp.1 gp.2 })
  else if c = 'M' then
    let t := docText s.grid
    let pos := min s.qtCursor t.length
    let b := blockNumberAt t pos
    if b = 0 then
      let t1 := '\n' :: blankLine s.cols ++ t
      let g1 := textDoc t1
      (true, { s with grid := g1, qtCursor := qtMoveUp g1 (1 + s.cols) })
    else
      (true, { s with qtCursor := qtMoveUp s.grid pos })
  else if c = 'E' then
    let t := docText s.grid
    let pos := min s.qtCursor t.length
    let b := blockNumberAt t pos
    let pos1 :=
      if b + 1 < s.grid.length then blockStart s.grid (b + 1)
      else lineStartAt t pos
    (true, { s with qtCursor := pos1 })
  else if c = 'c' then
    let s1 := clear s
    (true, { s1 with
      currentTextFormat := defaultTextFormat
      scrollRegion := none
      savedCursorPosition := none
      applicationCursorKeys := false
      applicationKeypadMode := false
      bracketedPasteMode := false
      overwriteMode := true })
  else (false, s)

/-- Tail of process escape sequence after the CSI dispatch: the two keypad
sequences, then any other two-byte sequence through handle simple sequence;
everything else only logs a warning. -/
def processSimpleTail (seq : List Char) (s : TermState) : Except String TermState :=
  if seq = ['\x1b', '='] then .ok { s with applicationKeypadMode := true }
  else if seq = ['\x1b', '>'] then .ok { s with applicationKeypadMode := false }
  else
    match seq with
    | [_, c2] => .ok (handleSimpleSequence c2 s).2
    | _ => .ok s

/-- Embedding of process escape sequence: OSC sequences first, then the CSI
command dispatch on the final byte (the window-operation branch calls a
method that does not exist on the class, an AttributeError), then the
simple-sequence tail. -/
def processEscapeSequence (seq : List Char) (s : TermState) : Except String TermState :=
  let osc :=
    match seq with
    | '\x1b' :: ']' :: _ => handleOscSequence seq s
    | _ => (false, s)
  if osc.1 then .ok osc.2
  else
    let s := osc.2
    match seq with
    | '\x1b' :: '[' :: rest =>
      let command := seq.getLast?.getD ' '
      let params := rest.dropLast
      if command = 'A' ∨ command = 'B' ∨ command = 'C' ∨ command = 'D' then
        .ok (handleCursorSequence seq s)
      else if command = 'H' ∨ command = 'f' then .ok (handleCursorPosition params s)
      else if command = 'J' then .ok (handleClearScreen params s)
      else if command = 'K' then .ok (handleEraseInLine params s)
      else if command = '@' ∨ command = 'P' ∨ command = 'M' ∨ command = 'L' then
        handleInsertDelete command params s
      else if command = 'm' then .ok (handleSgrSequence params s)
      else if command = 'n' then .ok (handleDeviceStatus params s)
      else if command = 'c' then .ok (handleDeviceAttributes params s)
      else if command = 'g' then .ok (handleTabControl params s)
      else if command = 'r' then .ok (handleScrollRegion params s)
      else if command = 'h' ∨ command = 'l' then handleModeSetting command params s
      else if command = 't' then
        .error "AttributeError: TerminalWidget has no attribute _handle_window_operation"
      else processSimpleTail seq s
    | _ => processSimpleTail seq s

/-- One character of the put_data loop: while inside an escape sequence the
character is appended, then the buffer is dispatched when complete or
discarded past the 128-character safety limit; an escape byte opens a
sequence; anything else is written to the grid. -/
def stepChar (s : TermState) (c : Char) : Except String TermState :=
  if s.inEscapeSeq then
    let buf := s.escapeSeqBuffer ++ [c]
    if isEscapeSequenceComplete buf then
      (processEscapeSequence buf { s with escapeSeqBuffer := buf }).map
        fun s1 => { s1 with escapeSeqBuffer := [], inEscapeSeq := false }
    else if buf.length > 128 then
      .ok { s with escapeSeqBuffer := [], inEscapeSeq := false }
    else
      .ok { s with escapeSeqBuffer := buf }
  else if c = '\x1b' then
    .ok { s with inEscapeSeq := true, escapeSeqBuffer := [c] }
  else
    .ok (writeChar c s)

/-- Embedding of put_data on already-decoded text (the lossy byte decode
never raises and is the identity on the ASCII data all escape sequences are
made of). -/
def putData (text : List Char) (s : TermState) : Except String TermState :=
  text.foldlM stepChar s

/-! ### Input encoder -/

/-- Qt key code for the up arrow. -/
def qtKeyUp : Nat := 0x01000013
/-- Qt key code for the down arrow. -/
def qtKeyDown : Nat := 0x01000015
/-- Qt key code for the left arrow. -/
def qtKeyLeft : Nat := 0x01000012
/-- Qt key code for the right arrow. -/
def qtKeyRight : Nat := 0x01000014
/-- Qt key code for Return. -/
def qtKeyReturn : Nat := 0x01000004
/-- Qt key code for keypad Enter. -/
def qtKeyEnter : Nat := 0x01000005
/-- Qt key code for Backspace. -/
def qtKeyBackspace : Nat := 0x01000003
/-- Qt key code for Delete. -/
def qtKeyDelete : Nat := 0x01000007
/-- Qt key code for Tab. -/
def qtKeyTab : Nat := 0x01000001
/-- Qt key code for the letter A; the letter keys run to A plus 25. -/
def qtKeyA : Nat := 0x41

/-- Keyboard modifier flags of a key event. -/
structure Modifiers where
  ctrl : Bool
  shift : Bool
  alt : Bool
  metaKey : Bool
deriving DecidableEq, Repr

/-- True when no modifier at all is held (the Python not-modifiers test). -/
def noModifiers (m : Modifiers) : Bool :=
  !(m.ctrl || m.shift || m.alt || m.metaKey)

/-- The application-keypad-mode dictionary of keyPressEvent: digit, minus,
plus, period and keypad-Enter keys mapped to their ESC O sequences. -/
def keypadMap (key : Nat) : Option (List Nat) :=
  if key = 0x30 then some [0x1b, 0x4f, 0x70]
  else if key = 0x31 then some [0x1b, 0x4f, 0x71]
  else if key = 0x32 then some [0x1b, 0x4f, 0x72]
  else if key = 0x33 then some [0x1b, 0x4f, 0x73]
  else if key = 0x34 then some [0x1b, 0x4f, 0x74]
  else if key = 0x35 then some [0x1b, 0x4f, 0x75]
  else if key = 0x36 then some [0x1b, 0x4f, 0x76]
  else if key = 0x37 then some [0x1b, 0x4f, 0x77]
  else if key = 0x38 then some [0x1b, 0x4f, 0x78]
  else if key = 0x39 then some [0x1b, 0x4f, 0x79]
  else if key = 0x2D then some [0x1b, 0x4f, 0x6d]
  else if key = 0x2B then some [0x1b, 0x4f, 0x6c]
  else if key = 0x2E then some [0x1b, 0x4f, 0x6e]
  else if key = qtKeyEnter then some [0x1b, 0x4f, 0x4d]
  else none

/-- The special control-combination dictionary of keyPressEvent. -/
def ctrlMap (key : Nat) : Option (List Nat) :=
  if key = 0x32 then some [0x00]
  else if key = 0x33 then some [0x1b]
  else if key = 0x34 then some [0x1c]
  else if key = 0x35 then some [0x1d]
  else if key = 0x36 then some [0x1e]
  else if key = 0x37 then some [0x1f]
  else if key = 0x38 then some [0x7f]
  else none

/-- Arrow-and-text part of keyPressEvent, reached when neither the keypad
branch nor the control branch emitted: application cursor key mode sends
ESC O with the arrow letter, normal mode sends ESC bracket with the letter
(and additionally maps Tab); Return and Enter send carriage return,
Backspace sends DEL with control held and BS otherwise, Delete sends its
CSI sequence, and any other key with text sends the text UTF-8 encoded. -/
def keyArrowText (appCursor : Bool) (key : Nat) (m : Modifiers) (text : List Char) :
    List Nat :=
  if appCursor then
    if key = qtKeyUp then [0x1b, 0x4f, 0x41]
    else if key = qtKeyDown then [0x1b, 0x4f, 0x42]
    else if key = qtKeyRight then [0x1b, 0x4f, 0x43]
    else if key = qtKeyLeft then [0x1b, 0x4f, 0x44]
    else if key = qtKeyReturn ∨ key = qtKeyEnter then [0x0d]
    else if key = qtKeyBackspace then if m.ctrl then [0x7f] else [0x08]
    else if key = qtKeyDelete then [0x1b, 0x5b, 0x33, 0x7e]
    else if text ≠ [] then utf8Bytes text
    else []
  else
    if key = qtKeyUp then [0x1b, 0x5b, 0x41]
    else if key = qtKeyDown then [0x1b, 0x5b, 0x42]
    else if key = qtKeyRight then [0x1b, 0x5b, 0x43]
    else if key = qtKeyLeft then [0x1b, 0x5b, 0x44]
    else if key = qtKeyReturn ∨ key = qtKeyEnter then [0x0d]
    else if key = qtKeyBackspace then if m.ctrl then [0x7f] else [0x08]
    else if key = qtKeyDelete then [0x1b, 0x5b, 0x33, 0x7e]
    else if key = qtKeyTab then [0x09]
    else if text ≠ [] then utf8Bytes text
    else []

/-- Embedding of keyPressEvent as the bytes emitted for one key event,
given the application keypad and application cursor key mode flags: first
the keypad dictionary when keypad mode is on and no modifier is held, then
control combinations when control is held (letters become C0 codes, the
special dictionary covers the rest, anything else falls through), then the
arrow-and-text handling. -/
def keyPressEvent (appKeypad appCursor : Bool) (key : Nat) (m : Modifiers)
    (text : List Char) : List Nat :=
  let afterKeypad : List Nat :=
    if m.ctrl then
      if qtKeyA ≤ key ∧ key ≤ qtKeyA + 25 then [key - qtKeyA + 1]
      else
        match ctrlMap key with
        | some bs => bs
        | none => keyArrowText appCursor key m text
    else keyArrowText appCursor key m text
  if appKeypad ∧ noModifiers m then
    match keypadMap key with
    | some bs => bs
    | none => afterKeypad
  else afterKeypad

/-! ### Theorems -/

/-- Processing concatenated input equals processing the pieces in order:
put_data is a left fold of the per-character step over the persistent
engine state, so chunk boundaries are invisible. -/
theorem putData_append (xs ys : List Char) (s : TermState) :
    putData (xs ++ ys) s = (putData xs s).bind fun s1 => putData ys s1 := by
  induction xs generalizing s with
  | nil => rfl
  | cons x xs ih =>
    show (stepChar s x).bind (fun s1 => putData (xs ++ ys) s1) =
      ((stepChar s x).bind fun s1 => putData xs s1).bind fun s1 => putData ys s1
    cases stepChar s x with
    | error e => rfl
    | ok s1 => exact ih s1

/-- C6: for every valid CSI sequence and every byte boundary inside it,
feeding the two pieces to put_data in consecutive calls ends in exactly the
state a single call on the whole sequence ends in (outputs and errors
included, both being part of the state and result). -/
theorem putData_split_csi (s : TermState) (cs : List Char) (i : Nat)
    (_h : isValidCSI cs = true) :
    ((putData (cs.take i) s).bind fun s1 => putData (cs.drop i) s1) =
      putData cs s := by
  rw [← putData_append, List.take_append_drop]

/-- Witness for putData_split_csi: the cursor-position sequence split after
its third byte on a fresh 24 by 80 terminal. -/
theorem putData_split_csi_w :
    isValidCSI ("\x1b[2;3H".toList) = true ∧
    ((putData (("\x1b[2;3H".toList).take 3) (initState 24 80)).bind
        fun s1 => putData (("\x1b[2;3H".toList).drop 3) s1) =
      putData ("\x1b[2;3H".toList) (initState 24 80) :=
  ⟨by decide, putData_split_csi (initState 24 80) ("\x1b[2;3H".toList) 3 (by decide)⟩

/-- C2 is a code bug: put_data does raise. The insert-delete handler
converts its whole parameter string with a bare int conversion, so a CSI
at-sign sequence with two semicolon-separated parameters raises ValueError
out of put_data. -/
theorem putData_raises_on_insert_params :
    putData ("\x1b[1;2@".toList) (initState 24 80) =
      .error "ValueError: invalid literal for int() with base 10" := by
  rfl

/-- C1 is a code bug: update cursor position clamps the column into the
grid and the row only from below, never against the row count, so a
cursor-down sequence with a large count leaves the tracked cursor row far
beyond the last row (here row 99 on a 24-row terminal). -/
theorem cursorRow_escapes_grid :
    (putData ("\x1b[99B".toList) (initState 24 80)).map
      (fun s => (s.cursorRow, decide (s.cursorRow < (s.rows : Int)))) =
      .ok (99, false) := by
  rfl

/-- C4 is a code bug: entering the alternate screen saves a cursor
position, and leaving it then calls the method move cursor to, which does
not exist on the class, so the round trip raises AttributeError instead of
restoring the main buffer. -/
theorem alt_roundtrip_attribute_error :
    putData ("AB\x1b[?1049h\x1b[?1049l".toList) (clear (initState 3 5)) =
      .error "AttributeError: TerminalWidget has no attribute _move_cursor_to" := by
  rfl

/-- Writing a plain character never touches the escape-sequence flag or
buffer: all its state changes go through cursor updates, region scrolls and
grid writes. -/
theorem writeChar_preserves_escape (c : Char) (s : TermState) :
    (writeChar c s).inEscapeSeq = s.inEscapeSeq ∧
    (writeChar c s).escapeSeqBuffer = s.escapeSeqBuffer := by
  rcases hr : s.scrollRegion with _ | ⟨top, bottom⟩ <;>
    simp only [writeChar, updateCursorPosition, scrollRegionUp, hr] <;>
    split_ifs <;> simp

/-- The invariant of C9 as a predicate: outside an escape sequence the
accumulator is empty. -/
def escInv (s : TermState) : Prop :=
  s.inEscapeSeq = false → s.escapeSeqBuffer = []

/-- One put_data step preserves the empty-accumulator invariant: the loop
itself resets both fields after a dispatch or an overflow, keeps the flag
true while accumulating, and plain writes touch neither field. -/
theorem stepChar_escInv {s s' : TermState} {c : Char} (hs : escInv s)
    (h : stepChar s c = .ok s') : escInv s' := by
  simp only [stepChar] at h
  split_ifs at h with hf hc hl hesc
  · cases hp : processEscapeSequence (s.escapeSeqBuffer ++ [c])
        { s with escapeSeqBuffer := s.escapeSeqBuffer ++ [c] } with
    | error e => rw [hp] at h; simp [Except.map] at h
    | ok s1 =>
      rw [hp] at h
      simp only [Except.map, Except.ok.injEq] at h
      subst h
      intro _
      rfl
  · simp only [Except.ok.injEq] at h
    subst h
    intro _
    rfl
  · simp only [Except.ok.injEq] at h
    subst h
    intro hcon
    simp [hf] at hcon
  · simp only [Except.ok.injEq] at h
    subst h
    intro hcon
    simp at hcon
  · simp only [Except.ok.injEq] at h
    subst h
    intro hcon
    rcases writeChar_preserves_escape c s with ⟨e1, e2⟩
    rw [e2]
    exact hs (by rw [← e1]; exact hcon)

/-- A successful put_data run preserves the empty-accumulator invariant. -/
theorem putData_escInv {text : List Char} {s s' : TermState} (hs : escInv s)
    (h : putData text s = .ok s') : escInv s' := by
  induction text generalizing s with
  | nil => exact Except.ok.inj h ▸ hs
  | cons x xs ih =>
    have hstep : putData (x :: xs) s = (stepChar s x).bind fun s1 => putData xs s1 := rfl
    rw [hstep] at h
    cases hsc : stepChar s x with
    | error e => rw [hsc] at h; exact absurd h (by simp [Except.bind])
    | ok s1 =>
      rw [hsc] at h
      exact ih (stepChar_escInv hs hsc) h

/-- C9: after every byte processed by put_data — that is, after every
prefix of the input — whenever the in-escape-sequence flag is false the
escape accumulator is the empty string, so the next ESC always starts its
sequence from an empty buffer. -/
theorem putData_escape_buffer_inv (text : List Char) (s : TermState)
    (hs : s.inEscapeSeq = false → s.escapeSeqBuffer = [])
    (i : Nat) (s' : TermState)
    (h : putData (text.take i) s = .ok s') :
    s'.inEscapeSeq = false → s'.escapeSeqBuffer = [] :=
  putData_escInv hs h

/-- Witness for putData_escape_buffer_inv: the full reset sequence fed to a
fresh 2 by 3 terminal, checked after its complete two-byte prefix. -/
theorem putData_escape_buffer_inv_w :
    ((initState 2 3).inEscapeSeq = false → (initState 2 3).escapeSeqBuffer = []) ∧
    ((((putData (("\x1bc".toList).take 2) (initState 2 3)).toOption.getD
        (initState 0 0)).inEscapeSeq = false) →
      ((putData (("\x1bc".toList).take 2) (initState 2 3)).toOption.getD
        (initState 0 0)).escapeSeqBuffer = []) :=
  ⟨fun _ => rfl,
    putData_escape_buffer_inv ("\x1bc".toList) (initState 2 3) (fun _ => rfl) 2 _ rfl⟩

/-- C10: the full terminal reset leaves both mouse-tracking flags, their
saved snapshot, and the tracked cursor row and column unchanged, while it
resets the current text format, the scroll region, the saved cursor slot,
application cursor keys, application keypad, bracketed paste, overwrite
mode, and replaces the screen content with blank lines. -/
theorem full_reset_frame (s : TermState) :
    ((handleSimpleSequence 'c' s).2.mouseTracking = s.mouseTracking) ∧
    ((handleSimpleSequence 'c' s).2.mouseTrackingSGR = s.mouseTrackingSGR) ∧
    ((handleSimpleSequence 'c' s).2.savedMouseTracking = s.savedMouseTracking) ∧
    ((handleSimpleSequence 'c' s).2.savedMouseTrackingSGR = s.savedMouseTrackingSGR) ∧
    ((handleSimpleSequence 'c' s).2.cursorRow = s.cursorRow) ∧
    ((handleSimpleSequence 'c' s).2.cursorCol = s.cursorCol) ∧
    ((handleSimpleSequence 'c' s).2.currentTextFormat = defaultTextFormat) ∧
    ((handleSimpleSequence 'c' s).2.scrollRegion = none) ∧
    ((handleSimpleSequence 'c' s).2.savedCursorPosition = none) ∧
    ((handleSimpleSequence 'c' s).2.applicationCursorKeys = false) ∧
    ((handleSimpleSequence 'c' s).2.applicationKeypadMode = false) ∧
    ((handleSimpleSequence 'c' s).2.bracketedPasteMode = false) ∧
    ((handleSimpleSequence 'c' s).2.overwriteMode = true) ∧
    ((handleSimpleSequence 'c' s).2.grid =
      blankLine s.cols :: List.replicate (s.rows - 1) (blankLine s.cols)) :=
  ⟨rfl, rfl, rfl, rfl, rfl, rfl, rfl, rfl, rfl, rfl, rfl, rfl, rfl, rfl⟩

/-- Every reflowed line has exactly the target width. -/
theorem reflowLine_length (cols : Nat) (l : List Char) :
    (reflowLine cols l).length = cols := by
  unfold reflowLine
  split_ifs with h
  · simp only [List.length_append, List.length_replicate]
    omega
  · simp only [List.length_take]
    omega

/-- Reflowing a document ending in a given last line: every earlier line
reflows and the last line reflows unless empty. -/
theorem reflowGrid_concat (cols : Nat) (gs : List (List Char)) (a : List Char) :
    reflowGrid cols (gs ++ [a]) =
      gs.map (reflowLine cols) ++ [if a = [] then [] else reflowLine cols a] := by
  unfold reflowGrid
  rw [List.getLast?_concat, List.dropLast_concat]

/-- Reflowing never changes the number of document lines. -/
theorem reflowGrid_length (cols : Nat) (g : List (List Char)) :
    (reflowGrid cols g).length = g.length := by
  rcases List.eq_nil_or_concat g with rfl | ⟨gs, a, rfl⟩
  · rfl
  · rw [List.concat_eq_append, reflowGrid_concat]
    simp

/-- Every line of a reflowed document has the target width, except that a
trailing empty line stays empty. -/
theorem reflowGrid_mem (cols : Nat) (g : List (List Char)) :
    ∀ l ∈ reflowGrid cols g, l.length = cols ∨ l = [] := by
  rcases List.eq_nil_or_concat g with rfl | ⟨gs, a, rfl⟩
  · intro l hl
    simp [reflowGrid] at hl
  · intro l hl
    rw [List.concat_eq_append, reflowGrid_concat] at hl
    rcases List.mem_append.mp hl with hm | hm
    · rcases List.mem_map.mp hm with ⟨b, _, rfl⟩
      exact Or.inl (reflowLine_length cols b)
    · simp only [List.mem_singleton] at hm
      subst hm
      by_cases ha : a = []
      · simp [ha]
      · rw [if_neg ha]
        exact Or.inl (reflowLine_length cols a)

/-- Every non-final line of a reflowed document has exactly the target
width. -/
theorem reflowGrid_dropLast_mem (cols : Nat) (g : List (List Char)) :
    ∀ l ∈ (reflowGrid cols g).dropLast, l.length = cols := by
  rcases List.eq_nil_or_concat g with rfl | ⟨gs, a, rfl⟩
  · intro l hl
    simp [reflowGrid] at hl
  · intro l hl
    rw [List.concat_eq_append, reflowGrid_concat, List.dropLast_concat] at hl
    rcases List.mem_map.mp hl with ⟨b, _, rfl⟩
    exact reflowLine_length cols b

/-- C3 counterexample: a 2 by 3 terminal whose document holds its two blank
screen lines, resized to 1 row by 2 columns, still has 2 document rows
where the claim requires exactly 1. -/
theorem resize_row_count_cex :
    (resize 1 2 (clear (initState 2 3))).rows = 1 ∧
    (resize 1 2 (clear (initState 2 3))).grid.length = 2 :=
  ⟨rfl, rfl⟩

/-- C3 corrected: after a resize that changes the dimensions, the reflow
pads or truncates every line to exactly the new column count (a trailing
empty line is left empty) and clamps the cursor into the new bounds, but
the number of document rows is left unchanged — it is not forced to the new
row count. -/
theorem resize_reflow_shape (newRows newCols : Nat) (s : TermState)
    (h : ¬(s.rows = newRows ∧ s.cols = newCols)) :
    (resize newRows newCols s).rows = newRows ∧
    (resize newRows newCols s).cols = newCols ∧
    (resize newRows newCols s).grid.length = s.grid.length ∧
    (∀ l ∈ ((resize newRows newCols s).grid).dropLast, l.length = newCols) ∧
    (∀ l ∈ (resize newRows newCols s).grid, l.length = newCols ∨ l = []) ∧
    (resize newRows newCols s).cursorCol ≤ (newCols : Int) - 1 ∧
    (resize newRows newCols s).cursorRow ≤ (newRows : Int) - 1 := by
  have e : resize newRows newCols s =
      { s with rows := newRows, cols := newCols
               grid := reflowGrid newCols s.grid
               cursorCol := min s.cursorCol ((newCols : Int) - 1)
               cursorRow := min s.cursorRow ((newRows : Int) - 1) } := by
    unfold resize reflowContent
    rw [if_neg h]
  rw [e]
  exact ⟨rfl, rfl, reflowGrid_length _ _, reflowGrid_dropLast_mem _ _,
    reflowGrid_mem _ _, min_le_right _ _, min_le_right _ _⟩

/-- Witness for resize_reflow_shape: the 2 by 3 terminal resized to 3 by 4
keeps its 2 document rows. -/
theorem resize_reflow_shape_w :
    ¬((clear (initState 2 3)).rows = 3 ∧ (clear (initState 2 3)).cols = 4) ∧
    (resize 3 4 (clear (initState 2 3))).grid.length =
      (clear (initState 2 3)).grid.length :=
  ⟨by decide, (resize_reflow_shape 3 4 (clear (initState 2 3)) (by decide)).2.2.1⟩

/-- The completion rule for simple escape sequences exactly as the claim
states it: a sequence not introduced by the OSC, CSI or DCS lead pairs is
complete exactly when it is two bytes long — for the claimed fixed set, and
best-effort for any other second byte, hence for every second byte. -/
def claimSimpleComplete (seq : List Char) : Bool := seq.length = 2

/-- C5 counterexample: the two-byte save-cursor sequence of ESC and the
digit 7 is complete under the claim (7 is even listed in its fixed set) but
the code reports it incomplete: the backslash-7 in the source literal is an
octal escape for BEL, so the digit 7 is not in the recognized set, and
there is no catch-all for other second bytes. -/
theorem simple_escape_completion_cex :
    claimSimpleComplete ("\x1b7".toList) = true ∧
    isEscapeSequenceComplete ("\x1b7".toList) = false :=
  ⟨rfl, rfl⟩

/-- C5 corrected: a pending sequence that does not start with the OSC, CSI
or DCS lead pairs is recognized as complete exactly when it is two bytes
long and its second byte is one of the ten characters equals, greater-than,
BEL (0x07), backslash, 8, c, D, E, H and M; a two-byte sequence with any
other second byte — the digit 7 included — is not complete. -/
theorem simple_escape_completion (seq : List Char)
    (h1 : startsWithEsc ']' seq = false)
    (h2 : startsWithEsc '[' seq = false)
    (h3 : startsWithEsc 'P' seq = false) :
    isEscapeSequenceComplete seq =
      (decide (seq.length = 2) && decide (seq.getD 1 ' ' ∈ simpleEscChars)) := by
  unfold isEscapeSequenceComplete
  rw [h1, h2, h3]
  by_cases hlen : seq.length < 2
  · have hne : seq.length ≠ 2 := by omega
    simp [hlen, hne]
  · simp [hlen]

/-- Witness for simple_escape_completion: the two-byte sequence of ESC and
the letter Z, which is not in the recognized set. -/
theorem simple_escape_completion_w :
    startsWithEsc ']' ("\x1bZ".toList) = false ∧
    startsWithEsc '[' ("\x1bZ".toList) = false ∧
    startsWithEsc 'P' ("\x1bZ".toList) = false ∧
    isEscapeSequenceComplete ("\x1bZ".toList) =
      (decide (("\x1bZ".toList).length = 2) &&
        decide (("\x1bZ".toList).getD 1 ' ' ∈ simpleEscChars)) :=
  ⟨rfl, rfl, rfl, simple_escape_completion ("\x1bZ".toList) rfl rfl rfl⟩

/-- C7 counterexample: with a scroll region over rows 1 to 3 of a 6 by 4
terminal, scrolling up moves a cursor on the region top row 1 to row 0,
strictly above the region, and scrolling down moves a cursor on the bottom
row 3 to row 4, strictly below it: the cursor is pushed outside, and the
clamping sits on the opposite edge of each direction. -/
theorem scroll_region_cursor_cex :
    (scrollRegionUp 1 3 { clear (initState 6 4) with cursorRow := 1 }).cursorRow = 0 ∧
    ((0 : Int) < 1) ∧
    (scrollRegionDown 1 3 { clear (initState 6 4) with cursorRow := 3 }).cursorRow = 4 ∧
    ((3 : Int) < 4) :=
  ⟨by decide, by decide, by decide, by decide⟩

/-- C7 corrected: both scrolls leave a cursor outside the region alone;
inside the region, scroll-up keeps a cursor on the bottom row and moves
every other one up by one, pushing a cursor on the top row outside the
region, and scroll-down keeps a cursor on the top row and moves every other
one down by one, pushing a cursor on the bottom row outside. -/
theorem scroll_region_cursor_adjust (top bottom : Int) (s : TermState) :
    (¬(top ≤ s.cursorRow ∧ s.cursorRow ≤ bottom) →
      (scrollRegionUp top bottom s).cursorRow = s.cursorRow ∧
      (scrollRegionDown top bottom s).cursorRow = s.cursorRow) ∧
    ((top ≤ s.cursorRow ∧ s.cursorRow ≤ bottom) →
      ((scrollRegionUp top bottom s).cursorRow =
        if s.cursorRow = bottom then bottom else s.cursorRow - 1) ∧
      ((scrollRegionDown top bottom s).cursorRow =
        if s.cursorRow = top then top else s.cursorRow + 1)) := by
  constructor
  · intro h
    constructor <;> simp [scrollRegionUp, scrollRegionDown, h]
  · intro h
    constructor <;> simp [scrollRegionUp, scrollRegionDown, h]

/-- Witness for scroll_region_cursor_adjust: a cursor strictly inside the
region moves up with the content on scroll-up. -/
theorem scroll_region_cursor_adjust_w :
    ((1 : Int) ≤ 2 ∧ (2 : Int) ≤ 3) ∧
    ((scrollRegionUp 1 3 { clear (initState 6 4) with cursorRow := 2 }).cursorRow =
      if (2 : Int) = 3 then 3 else 2 - 1) :=
  ⟨by decide,
    ((scroll_region_cursor_adjust 1 3
      { clear (initState 6 4) with cursorRow := 2 }).2 (by decide)).1⟩

/-- C8: for each arrow key — whatever the keypad mode, the modifiers and
the event text — the encoder emits ESC O followed by the letter A, B, C or
D for up, down, right or left when application cursor keys mode is set, and
ESC bracket followed by the same letter when it is not: the keypad
dictionary holds no arrow keys and the control branch falls through for
them. -/
theorem arrow_key_encoding (appKeypad : Bool) (m : Modifiers) (text : List Char)
    (key letter : Nat)
    (h : (key, letter) ∈
      [(qtKeyUp, 0x41), (qtKeyDown, 0x42), (qtKeyRight, 0x43), (qtKeyLeft, 0x44)]) :
    keyPressEvent appKeypad true key m text = [0x1b, 0x4f, letter] ∧
    keyPressEvent appKeypad false key m text = [0x1b, 0x5b, letter] := by
  simp at h
  rcases h with ⟨rfl, rfl⟩ | ⟨rfl, rfl⟩ | ⟨rfl, rfl⟩ | ⟨rfl, rfl⟩ <;>
    cases hm : m.ctrl <;>
      simp [keyPressEvent, keyArrowText, keypadMap, ctrlMap, noModifiers, hm,
        qtKeyUp, qtKeyDown, qtKeyLeft, qtKeyRight, qtKeyReturn, qtKeyEnter,
        qtKeyBackspace, qtKeyDelete, qtKeyTab, qtKeyA]

/-- Witness for arrow_key_encoding: the up arrow with no modifiers. -/
theorem arrow_key_encoding_w :
    ((qtKeyUp, 0x41) ∈
      [(qtKeyUp, 0x41), (qtKeyDown, 0x42), (qtKeyRight, 0x43), (qtKeyLeft, 0x44)]) ∧
    keyPressEvent false true qtKeyUp ⟨false, false, false, false⟩ [] =
      [0x1b, 0x4f, 0x41] ∧
    keyPressEvent false false qtKeyUp ⟨false, false, false, false⟩ [] =
      [0x1b, 0x5b, 0x41] := by
  refine ⟨by simp, ?_, ?_⟩
  · exact (arrow_key_encoding false ⟨false, false, false, false⟩ [] qtKeyUp 0x41
      (by simp)).1
  · exact (arrow_key_encoding false ⟨false, false, false, false⟩ [] qtKeyUp 0x41
      (by simp)).2
